import Mathlib

/-!
Verification of the WTTP bridge resource fetcher (`wttpFetch.js`).

The JavaScript source is shallowly embedded: paths are Lean `String`s, byte
buffers are `List Nat`, bigint status codes are `Nat`, chunk-range bounds are
`Int` (the code uses the sentinel `-1` for "to the end"), and every contract
RPC that can reject is an `Except String` value supplied by a `Backend`
record.  A promise rejection or a `throw` is the `Except.error` case.  RPC
calls issued by the client are accumulated in a `List RpcCall` log so that
call-order and call-count properties can be stated.
-/

namespace Wttp

deriving instance DecidableEq for Except

/-- JavaScript `s.startsWith(pre)`. -/
def jsStartsWith (s pre : String) : Bool :=
  pre.data.isPrefixOf s.data

/-- JavaScript `s.endsWith(suf)`. -/
def jsEndsWith (s suf : String) : Bool :=
  suf.data.isSuffixOf s.data

/-- JavaScript `s.includes(c)` for a single-character needle. -/
def jsIncludesChar (s : String) (c : Char) : Bool :=
  s.data.contains c

/-- JavaScript `s.substring(n)` (drop the first `n` characters). -/
def jsSubstringFrom (s : String) (n : Nat) : String :=
  ⟨s.data.drop n⟩

/-- Model of `normalizePath` from `wttpFetch.js`: ensure the path starts with a slash
and strip the relative prefixes `./` and `../` (in the source, `!path` is
true exactly for the empty string once the argument is a string). -/
def normalizePath (path : String) : String :=
  if path = "" then "/"
  else if jsStartsWith path "/" then path
  else if jsStartsWith path "./" then "/" ++ jsSubstringFrom path 2
  else if jsStartsWith path "../" then "/" ++ jsSubstringFrom path 3
  else "/" ++ path

/-- One step of the segment-stack loop in `normalizePosixPath`: empty and `.`
segments are skipped, `..` pops the stack (`stack.pop()` is guarded by a
length check in the source, which is exactly `List.dropLast` on `[]`),
anything else is pushed. -/
def segStep (stack : List (List Char)) (seg : List Char) : List (List Char) :=
  if seg = [] ∨ seg = ['.'] then stack
  else if seg = ['.', '.'] then stack.dropLast
  else stack ++ [seg]

/-- Model of `normalizePosixPath` from `wttpFetch.js`: split on `/`, resolve `.` and
`..` with a stack, rejoin with a single leading slash. -/
def normalizePosixPath (path : String) : String :=
  let segments := path.data.splitOn '/'
  let stack := segments.foldl segStep []
  "/" ++ ⟨List.intercalate ['/'] stack⟩

/-- Model of `currentPath.substring(0, currentPath.lastIndexOf("/") + 1)`: keep
everything up to and including the last slash (empty if there is none). -/
def upToLastSlash (l : List Char) : List Char :=
  (l.reverse.dropWhile (· != '/')).reverse

/-- Model of `resolveRedirectPath` from `wttpFetch.js`.  For a `wttp://` URL the
source takes `parts[parts.length - 1]` of the `":"` split; `String.split`
never yields an empty array, so `getLastD` with a default is the same
access. -/
def resolveRedirectPath (currentPath location : String) : String :=
  if jsStartsWith location "/" then location
  else if jsStartsWith location "wttp://" then
    let parts := location.data.splitOn ':'
    let afterChain := parts.getLastD []
    normalizePath ⟨afterChain⟩
  else
    let baseDir :=
      if jsEndsWith currentPath "/" then currentPath
      else ⟨upToLastSlash currentPath.data⟩
    normalizePosixPath (baseDir ++ location)

/-! ## Data model

The response shapes mirror the tuples decoded from the contract ABI, as they
appear in the `defaultHead` object literal of `wttpFetch.js`. -/

/-- The `cache` sub-record of `headerInfo`. -/
structure CacheInfo where
  immutableFlag : Bool
  preset : Nat
  custom : String
deriving DecidableEq

/-- The `cors` sub-record of `headerInfo`. -/
structure CorsInfo where
  methods : Nat
  origins : List String
  preset : Nat
  custom : String
deriving DecidableEq

/-- The `redirect` sub-record of `headerInfo`. -/
structure RedirectInfo where
  code : Nat
  location : String
deriving DecidableEq

/-- The `headerInfo` record of a HEAD response. -/
structure HeaderInfo where
  cache : CacheInfo
  cors : CorsInfo
  redirect : RedirectInfo
deriving DecidableEq

/-- The `metadata.properties` record of a HEAD response. -/
structure ResourceProperties where
  mimeType : String
  charset : String
  encoding : String
  language : String
deriving DecidableEq

/-- The `metadata` record of a HEAD response. -/
structure ResourceMetadata where
  properties : ResourceProperties
  size : Nat
  version : Nat
  lastModified : Nat
  header : String
deriving DecidableEq

/-- A HEAD response (`head` in the source). -/
structure HeadResponse where
  status : Nat
  headerInfo : HeaderInfo
  metadata : ResourceMetadata
  etag : String
deriving DecidableEq

/-- The `resource` part of a GET / locate response: an ordered list of
datapoint addresses plus the declared total chunk count. -/
structure ResourceData where
  dataPoints : List String
  totalChunks : Nat
deriving DecidableEq

/-- A GET / locate response (`locateResponse` in the source). -/
structure LocateResponse where
  head : HeadResponse
  resource : ResourceData
deriving DecidableEq

/-- The value returned by `fetchWTTPResource`: response plus optional bytes
(`content: undefined` is `none`). -/
structure FetchResult where
  response : LocateResponse
  content : Option (List Nat)
deriving DecidableEq

/-- The constant `ethers.ZeroHash`. -/
def zeroHash : String :=
  "0x0000000000000000000000000000000000000000000000000000000000000000"

/-- The constant `ethers.ZeroAddress`. -/
def zeroAddress : String := "0x0000000000000000000000000000000000000000"

/-- The `defaultHead` object literal of `wttpFetch.js` (synthetic 404). -/
def defaultHead : HeadResponse :=
  { status := 404
    headerInfo :=
      { cache := { immutableFlag := false, preset := 0, custom := "" }
        cors := { methods := 1, origins := [], preset := 0, custom := "" }
        redirect := { code := 0, location := "" } }
    etag := zeroHash
    metadata :=
      { properties :=
          { mimeType := "0x0000", charset := "0x0000", encoding := "0x0000"
            language := "0x0000" }
        size := 0, version := 0, lastModified := 0, header := zeroHash } }

/-- One RPC issued by the client against the site, storage or provider
contracts.  `headCall`/`getCall` are the two site queries, `dpsCall` is the
`DPS()` pointer lookup and `readCall` is a `readDataPoint` chunk fetch. -/
inductive RpcCall where
  | headCall (path : String)
  | getCall (path : String) (rangeStart rangeEnd : Int)
  | dpsCall
  | readCall (dataPoint : String)
deriving DecidableEq

/-- The contract-RPC surface consumed by the fetcher.  The conditional
fields `ifModifiedSince` / `ifNoneMatch` are constant for a whole request
(the source closes over them in `makeHeadRequestObj`), so they are folded
into the backend closure; the object-vs-array ABI-encoding fallback inside
`callGet` re-invokes the same contract method with the same arguments and is
modelled as the single logical call it is. -/
structure Backend where
  headRpc : String → Except String HeadResponse
  getRpc : String → Int → Int → Except String LocateResponse
  dps : Except String String
  readDataPoint : String → Except String (List Nat)

/-- The `Except.isOk` test as a plain boolean (used to state decidable hypotheses
about backend calls). -/
def isOkE {ε α : Type} (x : Except ε α) : Bool :=
  match x with
  | Except.ok _ => true
  | Except.error _ => false

/-! ## Chunk reassembly (`readDataPointsContent`) -/

/-- Model of `combined.set(chunk, offset)`: overwrite `chunk.length` bytes of `buf`
starting at `off` (the source only ever writes within bounds). -/
def writeAt (buf : List Nat) (off : Nat) (chunk : List Nat) : List Nat :=
  buf.take off ++ chunk ++ buf.drop (off + chunk.length)

/-- The combination loop of `readDataPointsContent`: allocate a zeroed
buffer of `totalBytes` and copy each chunk at its running offset. -/
def combineChunks (contents : List (List Nat)) (totalBytes : Nat) : List Nat :=
  (contents.foldl (fun acc chunk => (writeAt acc.1 acc.2 chunk, acc.2 + chunk.length))
    ((List.replicate totalBytes 0 : List Nat), 0)).1

/-- The read loop of `readDataPointsContent`: fetch each datapoint in order;
the first failing read aborts the whole loop with the
`Failed to read datapoint i+1/total: cause` error of the source (`i` is the
0-based loop index). -/
def readLoop (B : Backend) (total : Nat) : List String → Nat →
    Except String (List (List Nat)) × List RpcCall
  | [], _ => (Except.ok [], [])
  | dp :: rest, i =>
    match B.readDataPoint dp with
    | Except.ok chunk =>
      let r := readLoop B total rest (i + 1)
      (r.1.map (fun cs => chunk :: cs), RpcCall.readCall dp :: r.2)
    | Except.error e =>
      (Except.error ("Failed to read datapoint " ++ toString (i + 1) ++ "/" ++
         toString total ++ ": " ++ e),
       [RpcCall.readCall dp])

/-- Model of `readDataPointsContent` from `wttpFetch.js`: validate the arguments,
look up the storage contract via `DPS()`, read every datapoint in order and
concatenate the chunks positionally (`totalBytesRead` is accumulated during
the loop and equals the sum of the fetched chunk lengths). -/
def readDataPointsContent (B : Backend) (siteAddress : String)
    (dataPoints : List String) : Except String (List Nat) × List RpcCall :=
  if siteAddress = "" ∨ dataPoints = [] then
    (Except.error "Valid site address and datapoints array required", [])
  else
    match B.dps with
    | Except.error e => (Except.error e, [RpcCall.dpsCall])
    | Except.ok _dpsAddress =>
      match readLoop B dataPoints.length dataPoints 0 with
      | (Except.error e, log) => (Except.error e, RpcCall.dpsCall :: log)
      | (Except.ok contents, log) =>
        let totalBytesRead := (contents.map List.length).sum
        (Except.ok (combineChunks contents totalBytesRead), RpcCall.dpsCall :: log)

/-! ## The request state machine (`fetchWTTPResource`) -/

/-- The recognized members of `options`, with the defaults destructured in
`fetchWTTPResource` (`range = { start: 0, end: -1 }`, `maxRedirects = 5`,
`headRequest = false`, `datapoints = false`). -/
structure FetchOptions where
  ifModifiedSince : Nat := 0
  ifNoneMatch : String := zeroHash
  rangeStart : Int := 0
  rangeEnd : Int := -1
  headRequest : Bool := false
  datapoints : Bool := false
  maxRedirects : Nat := 5
deriving DecidableEq

/-- The test `head.status === 200n || head.status === 206n`. -/
def isOkStatus (s : Nat) : Bool := s == 200 || s == 206

/-- The test that `head.status` is one of the redirect codes 301/302/307/308. -/
def isRedirectStatus (s : Nat) : Bool :=
  s == 301 || s == 302 || s == 307 || s == 308

/-- Model of the guarded HEAD call inside the redirect loop: the source
wraps `callHead(currentPath)` in a try/catch whose handler substitutes
`defaultHead`, so a HEAD transport failure is folded into the synthetic
404. -/
def callHeadModel (B : Backend) (p : String) : HeadResponse :=
  match B.headRpc p with
  | Except.ok h => h
  | Except.error _ => defaultHead

/-- The guard of the redirect branch: a redirect status together with a
truthy (non-empty) `headerInfo.redirect.location`. -/
def redirectCond (h : HeadResponse) : Bool :=
  isRedirectStatus h.status && h.headerInfo.redirect.location != ""

/-- The `while (true)` HEAD/redirect loop of `fetchWTTPResource`, structural
on the `redirectsLeft` counter: issue HEAD, and while the response is a
redirect with a location and `redirectsLeft > 0`, resolve the new path and
decrement.  When the counter reaches zero the final HEAD is still issued and
its (possibly still redirecting) response is returned as-is.  Returns the
final head, the final current path, and the log of HEAD calls. -/
def redirectLoop (B : Backend) : Nat → String → HeadResponse × String × List RpcCall
  | 0, p =>
    (callHeadModel B p, p, [RpcCall.headCall p])
  | Nat.succ k, p =>
    let head := callHeadModel B p
    if redirectCond head then
      let r := redirectLoop B k (resolveRedirectPath p head.headerInfo.redirect.location)
      (r.1, r.2.1, RpcCall.headCall p :: r.2.2)
    else (head, p, [RpcCall.headCall p])

/-- The `fallbackPaths` array of the source. -/
def fallbackPaths : List String :=
  ["index.html", "index.htm", "index.md", "index.txt"]

/-- The candidate path built for an index fallback probe. -/
def candidatePath (currentPath c : String) : String :=
  normalizePath (if jsEndsWith currentPath "/" then currentPath ++ c
                 else currentPath ++ "/" ++ c)

/-- The `for (const candidate of fallbackPaths)` probe loop: HEAD each
candidate in order; the first one answering 200/206 is adopted (`break`); a
candidate whose HEAD throws is skipped (`catch (_) ... try next`), and a
candidate answering any other status is also skipped. -/
def fallbackProbe (B : Backend) (currentPath : String) :
    List String → Option (HeadResponse × String) × List RpcCall
  | [] => (none, [])
  | c :: rest =>
    let cp := candidatePath currentPath c
    match B.headRpc cp with
    | Except.ok h =>
      if isOkStatus h.status then (some (h, cp), [RpcCall.headCall cp])
      else
        let r := fallbackProbe B currentPath rest
        (r.1, RpcCall.headCall cp :: r.2)
    | Except.error _ =>
      let r := fallbackProbe B currentPath rest
      (r.1, RpcCall.headCall cp :: r.2)

/-- A fallback candidate misses: its HEAD either rejects or answers a
non-ok status (stated as a boolean so hypotheses stay decidable). -/
def headMiss (B : Backend) (cp c : String) : Bool :=
  match B.headRpc (candidatePath cp c) with
  | Except.error _ => true
  | Except.ok h => !(isOkStatus h.status)

/-- The test `currentPath.endsWith("/") || !currentPath.includes(".")`. -/
def looksLikeDirectory (p : String) : Bool :=
  jsEndsWith p "/" || !(jsIncludesChar p '.')

/-- The index-fallback stage: only entered when the (non-ok) head is a 404
on a directory-like path; a successful probe replaces both the current head
and the current path. -/
def indexFallbackStage (B : Backend) (head : HeadResponse) (currentPath : String) :
    HeadResponse × String × List RpcCall :=
  if head.status == 404 && looksLikeDirectory currentPath then
    let r := fallbackProbe B currentPath fallbackPaths
    match r.1 with
    | some hp => (hp.1, hp.2, r.2)
    | none => (head, currentPath, r.2)
  else (head, currentPath, [])

/-- A HEAD-only `FetchResult`: the given head, no datapoints, no content. -/
def headOnlyResult (head : HeadResponse) : FetchResult :=
  { response := { head := head, resource := { dataPoints := [], totalChunks := 0 } }
    content := none }

/-- The undercount-repair stage: when the response declares
`totalChunks > 0` but carries fewer datapoints, re-issue GET for the full
index range `[0, totalChunks - 1]` and adopt the new response only if it
yields strictly more datapoints. -/
def undercountRepair (B : Backend) (cp : String) (lr : LocateResponse) :
    LocateResponse × List RpcCall :=
  if 0 < lr.resource.totalChunks ∧
      lr.resource.dataPoints.length < lr.resource.totalChunks then
    let tc := lr.resource.totalChunks
    match B.getRpc cp 0 ((tc : Int) - 1) with
    | Except.ok full =>
      if lr.resource.dataPoints.length < full.resource.dataPoints.length then
        (full, [RpcCall.getCall cp 0 ((tc : Int) - 1)])
      else (lr, [RpcCall.getCall cp 0 ((tc : Int) - 1)])
    | Except.error _ => (lr, [RpcCall.getCall cp 0 ((tc : Int) - 1)])
  else (lr, [])

/-- The first-chunk paging stage: an ok response declaring chunks but
carrying zero datapoints triggers one GET for chunk range `[0, 0]`, adopted
unconditionally on success. -/
def firstChunkPage (B : Backend) (cp : String) (lr : LocateResponse) :
    LocateResponse × List RpcCall :=
  if isOkStatus lr.head.status && decide (0 < lr.resource.totalChunks) &&
      decide (lr.resource.dataPoints.length = 0) then
    match B.getRpc cp 0 0 with
    | Except.ok fc => ({ head := fc.head, resource := fc.resource }, [RpcCall.getCall cp 0 0])
    | Except.error _ => (lr, [RpcCall.getCall cp 0 0])
  else (lr, [])

/-- The tail of the GET branch once a locate response has been obtained:
undercount repair, first-chunk paging, then content loading (skipped when
`datapoints` is set, the status is not ok, or there are no datapoints; a
`readDataPointsContent` failure here is not caught and propagates). -/
def mainGetAfter (B : Backend) (siteAddress cp : String) (lr0 : LocateResponse)
    (opts : FetchOptions) (logG : List RpcCall) :
    Except String FetchResult × List RpcCall :=
  let ru := undercountRepair B cp lr0
  let rp := firstChunkPage B cp ru.1
  let lr2 := rp.1
  if !opts.datapoints && isOkStatus lr2.head.status &&
      decide (0 < lr2.resource.dataPoints.length) then
    let rc := readDataPointsContent B siteAddress lr2.resource.dataPoints
    match rc.1 with
    | Except.ok bytes =>
      (Except.ok { response := lr2, content := some bytes }, logG ++ ru.2 ++ rp.2 ++ rc.2)
    | Except.error e =>
      (Except.error e, logG ++ ru.2 ++ rp.2 ++ rc.2)
  else (Except.ok { response := lr2, content := none }, logG ++ ru.2 ++ rp.2)

/-- The GET stage reached with an ok (200/206) head: `callGet` at the
requested range; on failure retried exactly once with the safe default range
`{0, -1}`; if the retry also fails, the successful HEAD is returned
head-only (no throw). -/
def mainGet (B : Backend) (siteAddress cp : String) (head : HeadResponse)
    (opts : FetchOptions) : Except String FetchResult × List RpcCall :=
  match B.getRpc cp opts.rangeStart opts.rangeEnd with
  | Except.ok lr0 =>
    mainGetAfter B siteAddress cp lr0 opts
      [RpcCall.getCall cp opts.rangeStart opts.rangeEnd]
  | Except.error _ =>
    match B.getRpc cp 0 (-1) with
    | Except.ok lr0 =>
      mainGetAfter B siteAddress cp lr0 opts
        [RpcCall.getCall cp opts.rangeStart opts.rangeEnd, RpcCall.getCall cp 0 (-1)]
    | Except.error _ =>
      (Except.ok (headOnlyResult head),
       [RpcCall.getCall cp opts.rangeStart opts.rangeEnd, RpcCall.getCall cp 0 (-1)])

/-- The direct-GET probe tried when the head is still not ok after the index
fallback ("in case HEAD is blocked but GET is allowed").  A probe answering
200/206 is returned with its content; note that a `readDataPointsContent`
rejection inside this `try` block is swallowed by its `catch (_)`, falling
through to the head-only return. -/
def directGetProbe (B : Backend) (siteAddress cp : String) (head : HeadResponse)
    (opts : FetchOptions) : Except String FetchResult × List RpcCall :=
  match B.getRpc cp opts.rangeStart opts.rangeEnd with
  | Except.ok probe =>
    if isOkStatus probe.head.status then
      if decide (0 < probe.resource.dataPoints.length) && !opts.datapoints then
        let rc := readDataPointsContent B siteAddress probe.resource.dataPoints
        match rc.1 with
        | Except.ok bytes =>
          (Except.ok { response := probe, content := some bytes },
           RpcCall.getCall cp opts.rangeStart opts.rangeEnd :: rc.2)
        | Except.error _ =>
          (Except.ok (headOnlyResult head),
           RpcCall.getCall cp opts.rangeStart opts.rangeEnd :: rc.2)
      else
        (Except.ok { response := probe, content := none },
         [RpcCall.getCall cp opts.rangeStart opts.rangeEnd])
    else
      (Except.ok (headOnlyResult head),
       [RpcCall.getCall cp opts.rangeStart opts.rangeEnd])
  | Except.error _ =>
    (Except.ok (headOnlyResult head),
     [RpcCall.getCall cp opts.rangeStart opts.rangeEnd])

/-- Model of `fetchWTTPResource` from `wttpFetch.js`, starting after provider / name
resolution (those stages touch no site RPC); the connectivity diagnostics
(`getNetwork`, the probing `DPS()`, `getCode`) are try/catch console probes
whose results are discarded and which issue none of the HEAD/GET/read calls
tracked here, so they are not modelled.  Returns the result (or the
propagated error) together with the ordered log of site/storage RPCs. -/
def fetchWTTPResource (B : Backend) (siteAddress inputPath : String)
    (opts : FetchOptions) : Except String FetchResult × List RpcCall :=
  if siteAddress = "" then (Except.error "Site address is required", [])
  else
    let path := normalizePath inputPath
    if opts.headRequest then
      match B.headRpc path with
      | Except.ok head =>
        (Except.ok { response := { head := head, resource := { dataPoints := [], totalChunks := 0 } }
                     content := none },
         [RpcCall.headCall path])
      | Except.error _ =>
        (Except.ok { response := { head := defaultHead, resource := { dataPoints := [], totalChunks := 0 } }
                     content := none },
         [RpcCall.headCall path])
    else
      let rl := redirectLoop B opts.maxRedirects path
      let head0 := rl.1
      let cp0 := rl.2.1
      if isOkStatus head0.status then
        let rg := mainGet B siteAddress cp0 head0 opts
        (rg.1, rl.2.2 ++ rg.2)
      else
        let rf := indexFallbackStage B head0 cp0
        let head1 := rf.1
        let cp1 := rf.2.1
        if isOkStatus head1.status then
          let rg := mainGet B siteAddress cp1 head1 opts
          (rg.1, rl.2.2 ++ rf.2.2 ++ rg.2)
        else
          let rp := directGetProbe B siteAddress cp1 head1 opts
          (rp.1, rl.2.2 ++ rf.2.2 ++ rp.2)

/-! ## ENS existence check (`checkEnsExists`) -/

/-- One entry of the `ENS_CONFIGS` table. -/
structure EnsConfig where
  registryAddress : String
  publicResolverAddress : String
deriving DecidableEq

/-- The `ENS_CONFIGS` table: mainnet (chain 1) and Sepolia (11155111). -/
def ensConfigs (chainId : Nat) : Option EnsConfig :=
  if chainId = 1 then
    some { registryAddress := "0x00000000000C2E074eC69A0dFb2997BA6C7d2e1e"
           publicResolverAddress := "0x231b0Ee14048e9dCcD1d247744d114a4EB5E8E63" }
  else if chainId = 11155111 then
    some { registryAddress := "0x00000000000C2E074eC69A0dFb2997BA6C7d2e1e"
           publicResolverAddress := "0x8FADE66B79cC9f707aB26799354482EB93a5B7dD" }
  else none

/-- Model of `normalizeEnsDomain`: lowercase and trim (the input is a string here, so
the type check of the source cannot fire). -/
def normalizeEnsDomain (domain : String) : String :=
  ⟨((domain.data.map Char.toLower).dropWhile Char.isWhitespace).reverse.dropWhile
      Char.isWhitespace |>.reverse⟩

/-- The provider / registry surface consumed by `checkEnsExists`.
`nameHash` abstracts the keccak256-based ENS namehash (an external
cryptographic primitive of the ethers library). -/
structure EnsBackend where
  getNetwork : Except String Nat
  ownerOf : String → String → Except String String
  nameHash : String → String

/-- Model of `checkEnsExists` from `wttpFetch.js`.  The `try` block normalizes the
domain, reads the chain id, returns `false` outright on a chain without an
`ENS_CONFIGS` entry, and otherwise compares the registry owner with the zero
address.  The `catch` block of the source interpolates `normalizedDomain`
into its warning message, but that `const` is block-scoped to the `try`, so
evaluating the template literal raises a `ReferenceError` instead of
reaching the `return false` statement. -/
def checkEnsExists (E : EnsBackend) (domain : String) : Except String Bool :=
  let tryBody : Except String Bool :=
    match E.getNetwork with
    | Except.error e => Except.error e
    | Except.ok chainId =>
      match ensConfigs chainId with
      | none => Except.ok false
      | some cfg =>
        let node := E.nameHash (normalizeEnsDomain domain)
        match E.ownerOf cfg.registryAddress node with
        | Except.error e => Except.error e
        | Except.ok owner => Except.ok (owner != zeroAddress)
  match tryBody with
  | Except.ok b => Except.ok b
  | Except.error _ =>
    Except.error "ReferenceError: normalizedDomain is not defined"

/-! ## Concrete backends used as test fixtures -/

/-- A head whose only deviation from `defaultHead` is its status. -/
def okHead (s : Nat) : HeadResponse := { defaultHead with status := s }

/-- A 301 redirect head pointing at `loc`. -/
def redirectHeadTo (loc : String) : HeadResponse :=
  { defaultHead with
    status := 301
    headerInfo := { defaultHead.headerInfo with
                    redirect := { code := 301, location := loc } } }

/-- A site whose two paths `/a` and `/b` redirect to each other forever. -/
def cycleBackend : Backend :=
  { headRpc := fun p =>
      if p = "/a" then Except.ok (redirectHeadTo "/b")
      else if p = "/b" then Except.ok (redirectHeadTo "/a")
      else Except.error "no such path"
    getRpc := fun _ _ _ => Except.error "GET not available"
    dps := Except.error "no dps"
    readDataPoint := fun _ => Except.error "no chunk" }

/-- A site that answers HEAD `/x` with a 200 but rejects every GET. -/
def getFailBackend : Backend :=
  { headRpc := fun p => if p = "/x" then Except.ok (okHead 200) else Except.error "no"
    getRpc := fun _ _ _ => Except.error "locate reverted"
    dps := Except.error "no dps"
    readDataPoint := fun _ => Except.error "no chunk" }

/-- A storage backend holding chunks `[1, 2]` at `0xaa` and `[3]` at `0xbb`;
every other datapoint read fails. -/
def chunkBackend : Backend :=
  { headRpc := fun _ => Except.error "not used"
    getRpc := fun _ _ _ => Except.error "not used"
    dps := Except.ok "0xdps"
    readDataPoint := fun d =>
      if d = "0xaa" then Except.ok [1, 2]
      else if d = "0xbb" then Except.ok [3]
      else Except.error "missing" }

/-- A site where `/docs/index.html` rejects HEAD, `/docs/index.htm` is a
404 and `/docs/index.md` answers 200. -/
def probeBackend : Backend :=
  { headRpc := fun p =>
      if p = "/docs/index.html" then Except.error "blocked"
      else if p = "/docs/index.htm" then Except.ok (okHead 404)
      else if p = "/docs/index.md" then Except.ok (okHead 200)
      else Except.ok (okHead 404)
    getRpc := fun _ _ _ => Except.error "not used"
    dps := Except.error "not used"
    readDataPoint := fun _ => Except.error "not used" }

/-- A locate response declaring 3 chunks but carrying only 2 datapoints. -/
def repairLr : LocateResponse :=
  { head := okHead 200, resource := { dataPoints := ["0x01", "0x02"], totalChunks := 3 } }

/-- The repair query result: still only the same 2 datapoints. -/
def repairFull : LocateResponse :=
  { head := okHead 206, resource := { dataPoints := ["0x01", "0x02"], totalChunks := 3 } }

/-- A site answering the full-range repair query `[0, 2]` with
`repairFull` (still 2 datapoints). -/
def repairBackend : Backend :=
  { headRpc := fun _ => Except.error "not used"
    getRpc := fun p s e =>
      if p = "/f" ∧ s = 0 ∧ e = 2 then Except.ok repairFull
      else Except.error "unexpected range"
    dps := Except.error "not used"
    readDataPoint := fun _ => Except.error "not used" }

/-- A site answering every HEAD with a 200 and rejecting everything else
(used for head-only requests). -/
def headOkBackend : Backend :=
  { headRpc := fun _ => Except.ok (okHead 200)
    getRpc := fun _ _ _ => Except.error "not used"
    dps := Except.error "not used"
    readDataPoint := fun _ => Except.error "not used" }

/-- A provider whose `getNetwork()` call rejects. -/
def ensFailBackend : EnsBackend :=
  { getNetwork := Except.error "network error: connection refused"
    ownerOf := fun _ _ => Except.error "unreachable"
    nameHash := fun _ => zeroHash }

/-! ## Helper lemmas on the string embedding -/

lemma data_slash_append (x : String) : ("/" ++ x).data = '/' :: x.data := by
  rw [String.data_append]; rfl

lemma slash_append_startsWith (x : String) : jsStartsWith ("/" ++ x) "/" = true := by
  unfold jsStartsWith
  rw [data_slash_append]
  show List.isPrefixOf ['/'] ('/' :: x.data) = true
  simp [List.isPrefixOf]

lemma slash_append_ne_empty (x : String) : ("/" ++ x) ≠ "" := by
  intro h
  have hd := congrArg String.data h
  rw [data_slash_append] at hd
  simp at hd

lemma startsWith_slash_ne_empty (q : String) (h : jsStartsWith q "/" = true) :
    q ≠ "" := by
  intro he
  subst he
  exact absurd h (by decide)

lemma normalizePath_of_startsWith (q : String) (h : jsStartsWith q "/" = true)
    (hq : q ≠ "") : normalizePath q = q := by
  unfold normalizePath
  rw [if_neg hq, if_pos h]

lemma normalizePath_startsWith_slash (p : String) :
    jsStartsWith (normalizePath p) "/" = true := by
  unfold normalizePath
  by_cases hp : p = ""
  · rw [if_pos hp]; decide
  · rw [if_neg hp]
    by_cases h1 : jsStartsWith p "/" = true
    · rw [if_pos h1]; exact h1
    · rw [if_neg h1]
      by_cases h2 : jsStartsWith p "./" = true
      · rw [if_pos h2]; exact slash_append_startsWith _
      · rw [if_neg h2]
        by_cases h3 : jsStartsWith p "../" = true
        · rw [if_pos h3]; exact slash_append_startsWith _
        · rw [if_neg h3]; exact slash_append_startsWith _

lemma except_bind_ok {ε α β : Type} (a : α) (f : α → Except ε β) :
    (Except.ok a >>= f) = f a := rfl

lemma except_bind_error {ε α β : Type} (e : ε) (f : α → Except ε β) :
    ((Except.error e : Except ε α) >>= f) = Except.error e := rfl

lemma except_pure {ε α : Type} (a : α) : (pure a : Except ε α) = Except.ok a := rfl

/-- When every read succeeds, the read loop returns exactly the fetched
chunks in input order, logging one `readCall` per datapoint. -/
lemma readLoop_ok (B : Backend) (total : Nat) :
    ∀ (dps : List String) (i : Nat) (chunks : List (List Nat)),
      dps.mapM B.readDataPoint = Except.ok chunks →
      readLoop B total dps i = (Except.ok chunks, dps.map RpcCall.readCall) := by
  intro dps
  induction dps with
  | nil =>
    intro i chunks h
    rw [List.mapM_nil, except_pure] at h
    cases h
    rfl
  | cons d rest ih =>
    intro i chunks h
    cases hd : B.readDataPoint d with
    | error e =>
      rw [List.mapM_cons] at h
      simp only [hd, except_bind_error] at h
      exact Except.noConfusion h
    | ok c =>
      cases hr : rest.mapM B.readDataPoint with
      | error e =>
        rw [List.mapM_cons] at h
        simp only [hd, hr, except_bind_ok, except_bind_error] at h
        exact Except.noConfusion h
      | ok cs =>
        rw [List.mapM_cons] at h
        simp only [hd, hr, except_bind_ok, except_pure, Except.ok.injEq] at h
        subst h
        simp [readLoop, hd, ih (i + 1) cs hr, Except.map]

/-- The first failing read aborts the loop with the indexed error message;
reads after the failing one are never issued. -/
lemma readLoop_fails (B : Backend) (total : Nat) (d e : String) (post : List String) :
    ∀ (pre : List String) (i : Nat),
      (∀ x ∈ pre, isOkE (B.readDataPoint x) = true) →
      B.readDataPoint d = Except.error e →
      readLoop B total (pre ++ d :: post) i =
        (Except.error ("Failed to read datapoint " ++ toString (i + pre.length + 1) ++
           "/" ++ toString total ++ ": " ++ e),
         (pre ++ [d]).map RpcCall.readCall) := by
  intro pre
  induction pre with
  | nil =>
    intro i hpre hd
    simp [readLoop, hd]
  | cons x pre ih =>
    intro i hpre hd
    have hx := hpre x (by simp)
    cases hxv : B.readDataPoint x with
    | error ex => rw [hxv] at hx; simp [isOkE] at hx
    | ok cx =>
      have hrec := ih (i + 1) (fun y hy => hpre y (by simp [hy])) hd
      have harith : i + (x :: pre).length + 1 = i + 1 + pre.length + 1 := by
        simp only [List.length_cons]
        omega
      rw [harith]
      simp only [List.cons_append, readLoop, hxv, List.append_eq, hrec, Except.map,
        List.map_cons]

/-- The offset-copy loop over a zeroed buffer of the right size is list
concatenation, stated with an arbitrary already-written prefix. -/
lemma combine_loop_eq_flatten :
    ∀ (contents : List (List Nat)) (pre : List Nat),
      (contents.foldl (fun acc chunk => (writeAt acc.1 acc.2 chunk, acc.2 + chunk.length))
        (pre ++ List.replicate ((contents.map List.length).sum) 0, pre.length)).1
        = pre ++ contents.flatten := by
  intro contents
  induction contents with
  | nil => intro pre; simp
  | cons c rest ih =>
    intro pre
    have hw : writeAt (pre ++ List.replicate (((c :: rest).map List.length).sum) 0)
        pre.length c
        = (pre ++ c) ++ List.replicate ((rest.map List.length).sum) 0 := by
      unfold writeAt
      rw [List.map_cons, List.sum_cons, List.replicate_add]
      rw [List.take_left' rfl]
      rw [show pre ++ (List.replicate c.length 0 ++
            List.replicate ((rest.map List.length).sum) 0)
          = (pre ++ List.replicate c.length 0) ++
            List.replicate ((rest.map List.length).sum) 0
        from (List.append_assoc pre _ _).symm]
      rw [List.drop_left' (by simp)]
    rw [List.foldl_cons]
    dsimp only
    rw [hw]
    rw [show pre.length + c.length = (pre ++ c).length from (List.length_append pre c).symm]
    rw [ih (pre ++ c)]
    simp [List.append_assoc]

/-- Evaluating `combineChunks` with the exact total size is `List.flatten`. -/
lemma combineChunks_eq_flatten (contents : List (List Nat)) :
    combineChunks contents ((contents.map List.length).sum) = contents.flatten := by
  have h := combine_loop_eq_flatten contents []
  simpa [combineChunks] using h

/-- In a flattened list of chunks, chunk `i` occupies the contiguous
positions starting at the sum of the lengths of the chunks before it. -/
lemma flatten_slice :
    ∀ (L : List (List Nat)) (i : Nat) (hi : i < L.length),
      ((L.flatten.drop (((L.take i).map List.length).sum)).take (L.get ⟨i, hi⟩).length)
        = L.get ⟨i, hi⟩ := by
  intro L
  induction L with
  | nil => intro i hi; exact absurd hi (by simp)
  | cons c rest ih =>
    intro i hi
    cases i with
    | zero =>
      simp [List.take_left]
    | succ j =>
      have hj : j < rest.length := by simpa using hi
      simp only [List.take_succ_cons, List.map_cons, List.sum_cons, List.flatten_cons,
        List.get_cons_succ]
      rw [← List.drop_drop, List.drop_left]
      exact ih j hj

/-! ## Claim theorems -/

/-- C8: path normalization is idempotent: for every string `p`,
`normalizePath (normalizePath p) = normalizePath p`. -/
theorem normalizePath_idempotent (p : String) :
    normalizePath (normalizePath p) = normalizePath p :=
  normalizePath_of_startsWith _ (normalizePath_startsWith_slash p)
    (startsWith_slash_ne_empty _ (normalizePath_startsWith_slash p))

/-- C8 witness: idempotence evaluated at the concrete relative path
`"docs/readme.md"`. -/
theorem normalizePath_idempotent_witness :
    normalizePath (normalizePath "docs/readme.md") = normalizePath "docs/readme.md" :=
  normalizePath_idempotent "docs/readme.md"

/-- C9: the three specified equations of `resolveRedirectPath`: a `../`
location resolves against the parent directory, a `./` location against the
current directory, and an absolute location overrides the current path. -/
theorem resolveRedirectPath_equations :
    resolveRedirectPath "/a/b/c" "../d" = "/a/d" ∧
    resolveRedirectPath "/a/b/" "./d" = "/a/b/d" ∧
    resolveRedirectPath "/x" "/y/z" = "/y/z" := by
  refine ⟨by decide, by decide, by decide⟩

/-- C3: the HEAD/redirect loop issues at most `maxRedirects + 1` HEAD calls
(i.e. at most `maxRedirects` redirect hops) for every backend, counter value
and path; the default `maxRedirects` is 5; and on the concrete 2-cycle
backend with 5 redirects left the loop stops after exactly 6 HEAD calls
(5 hops) with the still-redirecting 301 head, which `fetchWTTPResource`
surfaces as-is with no content. -/
theorem redirect_loop_bounded :
    (∀ (B : Backend) (n : Nat) (p : String),
        (redirectLoop B n p).2.2.length ≤ n + 1) ∧
    ({} : FetchOptions).maxRedirects = 5 ∧
    (redirectLoop cycleBackend 5 "/a").2.2.length = 6 ∧
    (redirectLoop cycleBackend 5 "/a").1.status = 301 ∧
    isRedirectStatus (redirectLoop cycleBackend 5 "/a").1.status = true ∧
    (fetchWTTPResource cycleBackend "0xsite" "/a" {}).1 =
      Except.ok (headOnlyResult (redirectHeadTo "/a")) := by
  refine ⟨?_, by decide, by decide, by decide, by decide, by decide⟩
  intro B n p
  induction n generalizing p with
  | zero => simp [redirectLoop]
  | succ k ih =>
    by_cases h : redirectCond (callHeadModel B p) = true
    · simp only [redirectLoop, h, if_true]
      simpa using Nat.succ_le_succ (ih _)
    · simp [redirectLoop, h]

/-- C7 (the code contradicts the claim): on any error inside the `try`
block, `checkEnsExists` does not return `false` — its `catch` handler
references the try-scoped `normalizedDomain` and therefore raises a
`ReferenceError`.  Evaluated here at a provider whose `getNetwork()`
rejects. -/
theorem checkEnsExists_raises_reference_error :
    checkEnsExists ensFailBackend "vitalik.eth" =
      Except.error "ReferenceError: normalizedDomain is not defined" ∧
    ∀ b : Bool, checkEnsExists ensFailBackend "vitalik.eth" ≠ Except.ok b := by
  refine ⟨by decide, fun b h => ?_⟩
  have h0 : checkEnsExists ensFailBackend "vitalik.eth" =
      Except.error "ReferenceError: normalizedDomain is not defined" := by decide
  rw [h0] at h
  exact Except.noConfusion h

/-- C1: for every non-empty ordered datapoint list whose reads succeed with
chunks `L1..LN`, reassembly returns the positional concatenation: a buffer
of length `ΣLi` in which chunk `i` occupies the contiguous offsets starting
at `Σ(L1..Li-1)`, in exactly the input order. -/
theorem readDataPointsContent_concatenates (B : Backend) (site addr : String)
    (dataPoints : List String) (chunks : List (List Nat))
    (hsite : site ≠ "") (hne : dataPoints ≠ [])
    (hdps : B.dps = Except.ok addr)
    (hfetch : dataPoints.mapM B.readDataPoint = Except.ok chunks) :
    (readDataPointsContent B site dataPoints).1 = Except.ok chunks.flatten ∧
    chunks.flatten.length = (chunks.map List.length).sum ∧
    ∀ i (hi : i < chunks.length),
      ((chunks.flatten.drop (((chunks.take i).map List.length).sum)).take
          (chunks.get ⟨i, hi⟩).length) = chunks.get ⟨i, hi⟩ := by
  refine ⟨?_, List.length_flatten chunks, flatten_slice chunks⟩
  unfold readDataPointsContent
  rw [if_neg (by push_neg; exact ⟨hsite, hne⟩)]
  simp only [hdps]
  rw [readLoop_ok B dataPoints.length dataPoints 0 chunks hfetch]
  simp [combineChunks_eq_flatten]

/-- C1 witness: two chunks `[1, 2]` and `[3]` reassemble to `[1, 2, 3]`. -/
theorem readDataPointsContent_concatenates_witness :
    (readDataPointsContent chunkBackend "0xsite" ["0xaa", "0xbb"]).1 =
      Except.ok ([[1, 2], [3]] : List (List Nat)).flatten :=
  (readDataPointsContent_concatenates chunkBackend "0xsite" "0xdps"
    ["0xaa", "0xbb"] [[1, 2], [3]] (by decide) (by decide) rfl rfl).1

/-- C6: if reading the chunk at (0-based) position `pre.length` fails with
cause `e` after all earlier reads succeeded, the whole reassembly aborts
with the error naming the 1-based failing index, the total chunk count and
the cause; no buffer is returned and no later chunk is fetched. -/
theorem chunk_read_failure_aborts (B : Backend) (site addr : String)
    (pre post : List String) (d e : String)
    (hsite : site ≠ "") (hdps : B.dps = Except.ok addr)
    (hpre : ∀ x ∈ pre, isOkE (B.readDataPoint x) = true)
    (hd : B.readDataPoint d = Except.error e) :
    readDataPointsContent B site (pre ++ d :: post) =
      (Except.error ("Failed to read datapoint " ++ toString (pre.length + 1) ++ "/" ++
         toString (pre ++ d :: post).length ++ ": " ++ e),
       RpcCall.dpsCall :: (pre ++ [d]).map RpcCall.readCall) := by
  unfold readDataPointsContent
  rw [if_neg (by push_neg; exact ⟨hsite, by simp⟩)]
  simp only [hdps]
  rw [readLoop_fails B (pre ++ d :: post).length d e post pre 0 hpre hd]
  simp

/-- C6 witness: in `["0xaa", "0xcc", "0xbb"]` the read of `"0xcc"` fails,
so reassembly aborts with the `2/3` error and never reads `"0xbb"`. -/
theorem chunk_read_failure_aborts_witness :
    readDataPointsContent chunkBackend "0xsite" (["0xaa"] ++ "0xcc" :: ["0xbb"]) =
      (Except.error "Failed to read datapoint 2/3: missing",
       RpcCall.dpsCall :: (["0xaa"] ++ ["0xcc"]).map RpcCall.readCall) :=
  chunk_read_failure_aborts chunkBackend "0xsite" "0xdps" ["0xaa"] ["0xbb"]
    "0xcc" "missing" (by decide) rfl (by decide) (by decide)

lemma fallbackProbe_skip (B : Backend) (cp : String) (pre rest : List String)
    (hpre : ∀ c ∈ pre, headMiss B cp c = true) :
    fallbackProbe B cp (pre ++ rest) =
      ((fallbackProbe B cp rest).1,
       pre.map (fun c => RpcCall.headCall (candidatePath cp c)) ++
         (fallbackProbe B cp rest).2) := by
  induction pre with
  | nil => simp
  | cons c pre ih =>
    have hc := hpre c (by simp)
    have hrest : ∀ x ∈ pre, headMiss B cp x = true := fun x hx => hpre x (by simp [hx])
    cases hB : B.headRpc (candidatePath cp c) with
    | ok h =>
      have hnot : isOkStatus h.status = false := by
        unfold headMiss at hc
        rw [hB] at hc
        simpa using hc
      simp [fallbackProbe, hB, hnot, ih hrest]
    | error e =>
      simp [fallbackProbe, hB, ih hrest]

lemma fallbackProbe_cons_hit (B : Backend) (cp c : String) (rest : List String)
    (h : HeadResponse) (hc : B.headRpc (candidatePath cp c) = Except.ok h)
    (hok : isOkStatus h.status = true) :
    fallbackProbe B cp (c :: rest) =
      (some (h, candidatePath cp c), [RpcCall.headCall (candidatePath cp c)]) := by
  simp [fallbackProbe, hc, hok]

/-- C4: with a 404 head on a directory-like path, the index fallback probes
the candidates in order; all candidates before the first hit are each probed
once (a rejecting HEAD just moves on), the first candidate answering 200/206
replaces the head and the current path, and no later candidate is tried. -/
theorem index_fallback_first_success (B : Backend) (head : HeadResponse)
    (cp : String) (pre post : List String) (c : String) (h : HeadResponse)
    (hsplit : fallbackPaths = pre ++ c :: post)
    (hpre : ∀ x ∈ pre, headMiss B cp x = true)
    (hc : B.headRpc (candidatePath cp c) = Except.ok h)
    (hok : isOkStatus h.status = true)
    (h404 : head.status = 404)
    (hdir : looksLikeDirectory cp = true) :
    indexFallbackStage B head cp =
      (h, candidatePath cp c,
       (pre ++ [c]).map (fun x => RpcCall.headCall (candidatePath cp x))) := by
  unfold indexFallbackStage
  rw [hsplit, fallbackProbe_skip B cp pre (c :: post) hpre,
      fallbackProbe_cons_hit B cp c post h hc hok]
  simp [h404, hdir]

/-- C4 witness: on `/docs/` where `index.html` rejects HEAD and `index.htm`
is a 404, the probe adopts `index.md` (200) and never tries `index.txt`. -/
theorem index_fallback_first_success_witness :
    indexFallbackStage probeBackend (okHead 404) "/docs/" =
      (okHead 200, "/docs/index.md",
       (["index.html", "index.htm"] ++ ["index.md"]).map
         (fun x => RpcCall.headCall (candidatePath "/docs/" x))) :=
  index_fallback_first_success probeBackend (okHead 404) "/docs/"
    ["index.html", "index.htm"] ["index.txt"] "index.md" (okHead 200)
    (by decide) (by decide) (by decide) (by decide) (by decide) (by decide)

/-- C5: when the response declares more chunks than it carries, exactly one
repair GET for the full index range `[0, totalChunks - 1]` is issued; a
successful repair is adopted precisely when it yields strictly more
datapoints (otherwise the partial first response is kept), and a failing
repair also keeps the first response. -/
theorem undercount_repair_spec (B : Backend) (cp : String) (lr : LocateResponse)
    (htc : 0 < lr.resource.totalChunks)
    (hlt : lr.resource.dataPoints.length < lr.resource.totalChunks) :
    (undercountRepair B cp lr).2 =
      [RpcCall.getCall cp 0 ((lr.resource.totalChunks : Int) - 1)] ∧
    (∀ full, B.getRpc cp 0 ((lr.resource.totalChunks : Int) - 1) = Except.ok full →
      (undercountRepair B cp lr).1 =
        if lr.resource.dataPoints.length < full.resource.dataPoints.length then full
        else lr) ∧
    (∀ e, B.getRpc cp 0 ((lr.resource.totalChunks : Int) - 1) = Except.error e →
      (undercountRepair B cp lr).1 = lr) := by
  unfold undercountRepair
  rw [if_pos ⟨htc, hlt⟩]
  cases hg : B.getRpc cp 0 ((lr.resource.totalChunks : Int) - 1) with
  | ok full0 =>
    simp only [hg]
    refine ⟨?_, ?_, ?_⟩
    · by_cases hlen : lr.resource.dataPoints.length < full0.resource.dataPoints.length <;>
        simp [hlen]
    · intro full hfull
      injection hfull with hfull
      subst hfull
      by_cases hlen : lr.resource.dataPoints.length < full0.resource.dataPoints.length <;>
        simp [hlen]
    · intro e he
      exact Except.noConfusion he
  | error e0 =>
    simp only [hg]
    refine ⟨?_, ?_, ?_⟩
    · simp
    · intro full hfull
      exact Except.noConfusion hfull
    · simp

/-- C5 witness: declared `totalChunks = 3` with 2 datapoints triggers the
repair GET for `[0, 2]`; the repair also returns 2, so the partial 2-chunk
response is kept. -/
theorem undercount_repair_spec_witness :
    0 < repairLr.resource.totalChunks ∧
    repairLr.resource.dataPoints.length < repairLr.resource.totalChunks ∧
    (undercountRepair repairBackend "/f" repairLr).2 = [RpcCall.getCall "/f" 0 2] ∧
    (undercountRepair repairBackend "/f" repairLr).1 = repairLr := by
  have h := undercount_repair_spec repairBackend "/f" repairLr (by decide) (by decide)
  refine ⟨by decide, by decide, ?_, ?_⟩
  · have h1 := h.1
    simpa using h1
  · have hg : repairBackend.getRpc "/f" 0 ((repairLr.resource.totalChunks : Int) - 1)
        = Except.ok repairFull := by decide
    have h2 := h.2.1 repairFull hg
    simpa using h2

lemma isOk_not_redirect {s : Nat} (h : isOkStatus s = true) :
    isRedirectStatus s = false := by
  simp [isOkStatus] at h
  rcases h with rfl | rfl <;> decide

lemma redirectLoop_stops (B : Backend) (p : String) (h : HeadResponse)
    (hB : B.headRpc p = Except.ok h) (hrc : redirectCond h = false) :
    ∀ n, redirectLoop B n p = (h, p, [RpcCall.headCall p]) := by
  intro n
  cases n with
  | zero => simp [redirectLoop, callHeadModel, hB]
  | succ k => simp [redirectLoop, callHeadModel, hB, hrc]

/-- C2 (amended): after a successful 200/206 HEAD, a failing locate/GET is
retried exactly once with the full-resource range `(0, -1)`; if the retry
also fails, the request returns — without throwing — a head-only result
that carries the successful HEAD (so its status stays 200/206, not a
synthetic 404), with no chunk identifiers and no content. -/
theorem get_failure_after_ok_head_returns_head_only (B : Backend)
    (site ip : String) (opts : FetchOptions) (h : HeadResponse) (e1 e2 : String)
    (hsite : site ≠ "") (hhr : opts.headRequest = false)
    (hB : B.headRpc (normalizePath ip) = Except.ok h)
    (hok : isOkStatus h.status = true)
    (hg1 : B.getRpc (normalizePath ip) opts.rangeStart opts.rangeEnd = Except.error e1)
    (hg2 : B.getRpc (normalizePath ip) 0 (-1) = Except.error e2) :
    fetchWTTPResource B site ip opts =
      (Except.ok (headOnlyResult h),
       [RpcCall.headCall (normalizePath ip),
        RpcCall.getCall (normalizePath ip) opts.rangeStart opts.rangeEnd,
        RpcCall.getCall (normalizePath ip) 0 (-1)]) := by
  have hrc : redirectCond h = false := by
    simp [redirectCond, isOk_not_redirect hok]
  have hloop := redirectLoop_stops B (normalizePath ip) h hB hrc opts.maxRedirects
  simp [fetchWTTPResource, hsite, hhr, hloop, hok, mainGet, hg1, hg2]

/-- C2 counterexample to the claim as stated: on a site whose HEAD for `/x`
answers 200 but whose GET always fails, the double GET failure returns the
200 head-only result — the log shows the single retry with range `(0, -1)` —
and the resulting status is 200, not the claimed synthetic 404. -/
theorem get_failure_counterexample :
    (fetchWTTPResource getFailBackend "0xsite" "/x" {}).1 =
      Except.ok (headOnlyResult (okHead 200)) ∧
    (fetchWTTPResource getFailBackend "0xsite" "/x" {}).2 =
      [RpcCall.headCall "/x", RpcCall.getCall "/x" 0 (-1),
       RpcCall.getCall "/x" 0 (-1)] ∧
    (headOnlyResult (okHead 200)).response.head.status = 200 ∧
    ((headOnlyResult (okHead 200)).response.head.status = 404 → False) := by
  refine ⟨by decide, by decide, by decide, by decide⟩

/-- C2 witness: the amended theorem applied to the concrete failing-GET
site. -/
theorem get_failure_after_ok_head_witness :
    fetchWTTPResource getFailBackend "0xsite" "/x" {} =
      (Except.ok (headOnlyResult (okHead 200)),
       [RpcCall.headCall "/x", RpcCall.getCall "/x" 0 (-1),
        RpcCall.getCall "/x" 0 (-1)]) :=
  get_failure_after_ok_head_returns_head_only getFailBackend "0xsite" "/x" {}
    (okHead 200) "locate reverted" "locate reverted" (by decide) rfl (by decide)
    (by decide) (by decide) (by decide)

/-- C10: a head-only request issues exactly one HEAD RPC (so no redirect
following, no index fallback, no GET and no chunk fetch) and returns no
content and an empty chunk list; a HEAD transport failure yields the
default 404 head instead of throwing. -/
theorem head_request_single_head_rpc (B : Backend) (site p : String)
    (opts : FetchOptions) (hsite : site ≠ "") (hh : opts.headRequest = true) :
    (fetchWTTPResource B site p opts).2 = [RpcCall.headCall (normalizePath p)] ∧
    ∃ r : FetchResult, (fetchWTTPResource B site p opts).1 = Except.ok r ∧
      r.content = none ∧ r.response.resource.dataPoints = [] ∧
      r.response.resource.totalChunks = 0 ∧
      ((∃ h, B.headRpc (normalizePath p) = Except.ok h ∧ r.response.head = h) ∨
        (∃ e, B.headRpc (normalizePath p) = Except.error e ∧
          r.response.head = defaultHead ∧ r.response.head.status = 404)) := by
  cases hB : B.headRpc (normalizePath p) with
  | ok h =>
    refine ⟨by simp [fetchWTTPResource, hsite, hh, hB],
      { response := { head := h, resource := { dataPoints := [], totalChunks := 0 } }
        content := none }, by simp [fetchWTTPResource, hsite, hh, hB],
      rfl, rfl, rfl, Or.inl ⟨h, rfl, rfl⟩⟩
  | error e =>
    refine ⟨by simp [fetchWTTPResource, hsite, hh, hB],
      { response := { head := defaultHead, resource := { dataPoints := [], totalChunks := 0 } }
        content := none }, by simp [fetchWTTPResource, hsite, hh, hB],
      rfl, rfl, rfl, Or.inr ⟨e, rfl, rfl, rfl⟩⟩

/-- C10 witness: a concrete head-only request issues the single HEAD call. -/
theorem head_request_single_head_rpc_witness :
    ("0xsite" : String) ≠ "" ∧
    ({ headRequest := true } : FetchOptions).headRequest = true ∧
    (fetchWTTPResource headOkBackend "0xsite" "/p" { headRequest := true }).2 =
      [RpcCall.headCall (normalizePath "/p")] :=
  ⟨by decide, rfl,
   (head_request_single_head_rpc headOkBackend "0xsite" "/p" { headRequest := true }
     (by decide) rfl).1⟩

end Wttp
